import Mathlib

/-!
Verification development for the `versions` tracker (src/src/main.rs).

The program polls a set of targets, extracts a version string from each
response (a JSONPath query for `json` targets, a 0-based line index for
`text` targets), compares it to the stored `current_version`, and on a
change inserts a history row into the `versions` table, updates the
`targets` row, and sends a notification e-mail.

The embedding below translates the program's pure logic directly from the
source.  External collaborators (HTTP transport, serde_json parsing, the
jsonpath selector, chrono dates, rusqlite statement execution, SMTP) are
modelled explicitly: the transport result and the JSON parse result are
inputs, SQL statement failures are injected through boolean flags, and the
current instant is a calendar date plus a second-of-day.
-/

/-- Calendar date, modelling `chrono::NaiveDate` (year, month 1-12, day 1-31).
Only non-negative years are modelled; the program only handles stored dates. -/
structure NaiveDate where
  y : Nat
  m : Nat
  d : Nat
deriving DecidableEq

/-- Proleptic Gregorian leap-year test, as in chrono. -/
def isLeap (y : Nat) : Bool := y % 4 = 0 && (y % 100 != 0 || y % 400 = 0)

/-- Number of days in month `m` of year `y` (0 for an invalid month). -/
def daysInMonth (y m : Nat) : Nat :=
  match m with
  | 1 => 31 | 2 => if isLeap y then 29 else 28 | 3 => 31 | 4 => 30
  | 5 => 31 | 6 => 30 | 7 => 31 | 8 => 31 | 9 => 30 | 10 => 31
  | 11 => 30 | 12 => 31 | _ => 0

/-- Days in the months of year `y` strictly before month `m`. -/
def daysBeforeMonth (y m : Nat) : Nat :=
  ([0, 31, 59, 90, 120, 151, 181, 212, 243, 273, 304, 334].getD (m - 1) 0)
  + (if 2 < m && isLeap y then 1 else 0)

/-- Leap years in `[0, y)` (year 0 counts as a leap year). -/
def leapsBefore (y : Nat) : Nat := (y + 3) / 4 - (y + 99) / 100 + (y + 399) / 400

/-- Absolute day number of a date (days since 0000-01-01).  Models chrono's
internal day counting; only differences of day numbers are used by the
program (`Duration::num_days`). -/
def NaiveDate.toDays (dt : NaiveDate) : Nat :=
  365 * dt.y + leapsBefore dt.y + daysBeforeMonth dt.y dt.m + (dt.d - 1)

/-- Validity of a year/month/day triple, as checked by chrono when a date is
constructed (e.g. by `NaiveDate::parse_from_str`). -/
def validYmd (y m d : Nat) : Bool :=
  decide (1 ≤ m) && decide (m ≤ 12) && decide (1 ≤ d) && decide (d ≤ daysInMonth y m)

/-- The decimal digit characters. -/
def digitChar : Nat → Char
  | 0 => '0' | 1 => '1' | 2 => '2' | 3 => '3' | 4 => '4'
  | 5 => '5' | 6 => '6' | 7 => '7' | 8 => '8' | _ => '9'

/-- Numeric value of a digit character. -/
def charVal (c : Char) : Nat := c.toNat - 48

/-- Decimal digit characters of `n`, most significant first (empty for 0). -/
def natDigits (n : Nat) : List Char := ((Nat.digits 10 n).map digitChar).reverse

/-- Left-pad a character list with zeros to width `k`. -/
def leftPad (k : Nat) (l : List Char) : List Char :=
  List.replicate (k - l.length) '0' ++ l

/-- Read a non-empty all-digit character list as a decimal number. -/
def readNat (l : List Char) : Option Nat :=
  if l.isEmpty then none
  else if l.all Char.isDigit then
    some (Nat.ofDigits 10 ((l.map charVal).reverse))
  else none

/-- Split a character list at every `'-'` (the separators are dropped;
`n` dashes give `n + 1` pieces). -/
def splitDash : List Char → List (List Char)
  | [] => [[]]
  | c :: rest =>
    if c = '-' then [] :: splitDash rest
    else
      match splitDash rest with
      | [] => [[c]]
      | h :: t => (c :: h) :: t

/-- ISO `%Y-%m-%d` rendering of a date, modelling `NaiveDate::to_string`
(chrono's `Display`): the year zero-padded to 4 digits, month and day to 2.
Faithful for years `0..=9999` (beyond that chrono prepends a sign). -/
def NaiveDate.format (dt : NaiveDate) : String :=
  String.mk (leftPad 4 (natDigits dt.y) ++
    '-' :: (leftPad 2 (natDigits dt.m) ++ '-' :: leftPad 2 (natDigits dt.d)))

/-- Parsing of a `%Y-%m-%d` string, modelling
`NaiveDate::parse_from_str(s, "%Y-%m-%d")`: three dash-separated decimal
fields, then chrono's calendar-validity check. -/
def NaiveDate.parseYmd (s : String) : Option NaiveDate :=
  match splitDash s.data with
  | [ys, ms, ds] =>
    match readNat ys, readNat ms, readNat ds with
    | some y, some m, some d => if validYmd y m d then some ⟨y, m, d⟩ else none
    | _, _, _ => none
  | _ => none

/-- `impl ToSql for MyNaiveDate` (main.rs:55-59): the value stored in the
database is `self.0.to_string()`. -/
def MyNaiveDate.to_sql (dt : NaiveDate) : String := dt.format

/-- `impl FromSql for MyNaiveDate` (main.rs:61-69): the stored string is
parsed with `NaiveDate::parse_from_str(s, "%Y-%m-%d")`; a parse failure is
a `FromSql` error, modelled as `none`. -/
def MyNaiveDate.column_result (s : String) : Option NaiveDate := NaiveDate.parseYmd s

/-- The error enum `AppError` (main.rs:33-49). -/
inductive AppError where
  | SqlError (msg : String)
  | ReqwestError (msg : String)
  | JsonError (msg : String)
  | InvalidLineNumber
  | VersionNotFound
  | UnexpectedError (msg : String)
  | JsonPathError (msg : String)
deriving DecidableEq

/-- `serde_json::Value`.  Numbers are modelled as integers (the program never
inspects a numeric payload, it only asks `as_str`). -/
inductive Json where
  | null
  | bool (b : Bool)
  | num (n : Int)
  | str (s : String)
  | arr (elems : List Json)
  | obj (fields : List (String × Json))

/-- `serde_json::Value::as_str`: `Some` exactly on JSON strings. -/
def Json.as_str : Json → Option String
  | Json.str s => some s
  | _ => none

/-- Recognise the simple child-member JSONPath expressions `$.key` that this
analysis needs; anything else is treated as outside the modelled fragment. -/
def jsonpathKey (p : String) : Option String :=
  match p.data with
  | '$' :: '.' :: rest =>
    if rest.isEmpty then none
    else if rest.all Char.isAlphanum then some (String.mk rest) else none
  | _ => none

/-- First binding of `key` in a JSON object, as a (0- or 1-element) match list. -/
def objLookup (fields : List (String × Json)) (key : String) : List Json :=
  match fields.find? (fun kv => kv.fst == key) with
  | some kv => [kv.snd]
  | none => []

/-- Modelled behaviour of the `jsonpath_lib` selector (main.rs:110-111) on
child-member paths `$.key`: the matching values of the document (empty when
the key is absent or the document is not an object).  Paths outside the
modelled fragment are an `Err`, surfaced by the program as `JsonPathError`. -/
def jsonpathEval (j : Json) (p : String) : Except String (List Json) :=
  match jsonpathKey p with
  | some key =>
    Except.ok (match j with
      | Json.obj fields => objLookup fields key
      | _ => [])
  | none => Except.error "unsupported path"

/-- A fetched HTTP response body: the raw text, together with the result of
`serde_json::from_str` on it (the parse is performed by the external
serde_json library, so its outcome is part of the modelled input). -/
structure Response where
  text : String
  json : Except String Json

/-- Strip one trailing `'\r'` from a reversed line accumulator. -/
def stripTrailingCr (revLine : List Char) : List Char :=
  match revLine with
  | '\r' :: rest => rest
  | l => l

/-- Worker for `rustLines`: `revCur` is the current line, reversed. -/
def rustLinesAux : List Char → List Char → List String
  | revCur, [] => if revCur.isEmpty then [] else [String.mk revCur.reverse]
  | revCur, '\n' :: rest => String.mk (stripTrailingCr revCur).reverse :: rustLinesAux [] rest
  | revCur, c :: rest => rustLinesAux (c :: revCur) rest

/-- Model of Rust `str::lines`: split at `'\n'` or `"\r\n"`, no trailing empty
line after a final line terminator, a lone `'\r'` is kept. -/
def rustLines (s : String) : List String := rustLinesAux [] s.data

/-- Model of Rust `str::parse::<usize>`: optional leading `'+'`, then one or
more ASCII digits, rejecting values that overflow a 64-bit `usize`. -/
def parseUsize (s : String) : Option Nat :=
  let l := match s.data with
    | '+' :: rest => rest
    | l => l
  if l.isEmpty then none
  else if l.all Char.isDigit then
    let n := Nat.ofDigits 10 ((l.map charVal).reverse)
    if n < 18446744073709551616 then some n else none
  else none

/-- Outcome of the extraction part of `Target::fetch_version`: a normal
`Ok(Option<String>)`, an `Err(AppError)`, or a Rust panic. -/
inductive ExtractOutcome where
  | ok (v : Option String)
  | err (e : AppError)
  | panicked
deriving DecidableEq

/-- The extraction logic of `Target::fetch_version` (main.rs:105-131), after
the transport has produced a response body.  The `json` arm parses the body
(`resp.json`), evaluates the JSONPath selector, and calls
`version.as_str().unwrap()` on the first match — `unwrap` on a non-string
match is a panic.  The `text` arm parses the rule as a `usize` and indexes
`response.lines()`.  A missing rule, or any other `target_type`, falls
through to `Ok(None)`. -/
def fetch_version_core (target_type : String) (jsonpath_line : Option String)
    (resp : Response) : ExtractOutcome :=
  if target_type = "json" then
    match jsonpath_line with
    | some p =>
      match resp.json with
      | Except.error m => ExtractOutcome.err (AppError.JsonError m)
      | Except.ok j =>
        match jsonpathEval j p with
        | Except.error m => ExtractOutcome.err (AppError.JsonPathError m)
        | Except.ok results =>
          match results.head? with
          | some v =>
            match v.as_str with
            | some s => ExtractOutcome.ok (some s)
            | none => ExtractOutcome.panicked
          | none => ExtractOutcome.err AppError.VersionNotFound
    | none => ExtractOutcome.ok none
  else if target_type = "text" then
    match jsonpath_line with
    | some ln =>
      match parseUsize ln with
      | some idx =>
        match (rustLines resp.text).get? idx with
        | some line => ExtractOutcome.ok (some line)
        | none => ExtractOutcome.err AppError.VersionNotFound
      | none => ExtractOutcome.err AppError.InvalidLineNumber
    | none => ExtractOutcome.ok none
  else ExtractOutcome.ok none

/-- A row of the `targets` table / the `Target` struct (main.rs:22-31). -/
structure Target where
  id : Option Int
  name : String
  target_type : String
  url : String
  jsonpath_line : Option String
  current_version : Option String
  released : Option NaiveDate
deriving DecidableEq

/-- A row of the `versions` history table, as written by `Target::update`
(main.rs:140-143). -/
structure VersionRecord where
  target_id : Int
  version : Option String
  released : Option NaiveDate
  updated : NaiveDate
  updated_version : String
deriving DecidableEq

/-- The database state: the `targets` table and the `versions` table. -/
structure DB where
  targets : List Target
  versions : List VersionRecord
deriving DecidableEq

/-- Result of `Target::update`: the database state after the call together
with the returned error, if any.  rusqlite runs each `execute` in its own
implicit transaction (there is no explicit transaction in the source), so a
failure of the second statement leaves the first one committed. -/
structure UpdateResult where
  db : DB
  err : Option AppError
deriving DecidableEq

/-- `Target::update` (main.rs:134-156): require `self.id`; INSERT the
pre-update state into `versions`; then UPDATE the `targets` row with the new
version and today's date.  `insertFails` / `updateFails` inject a rusqlite
failure of the corresponding statement. -/
def Target.update (t : Target) (db : DB) (new_version : String) (today : NaiveDate)
    (insertFails updateFails : Bool) : UpdateResult :=
  match t.id with
  | some id =>
    if insertFails then ⟨db, some (AppError.SqlError "INSERT versions failed")⟩
    else
      let db1 : DB :=
        { db with versions := db.versions ++ [⟨id, t.current_version, t.released, today, new_version⟩] }
      if updateFails then ⟨db1, some (AppError.SqlError "UPDATE targets failed")⟩
      else
        let db2 : DB :=
          { db1 with targets := db1.targets.map (fun r =>
              if r.id = some id then
                { r with current_version := some new_version, released := some today }
              else r) }
        ⟨db2, none⟩
  | none => ⟨db, some (AppError.UnexpectedError "Target ID is missing")⟩

/-- `duration.num_days()` for the duration from the stored release date at
midnight to the current instant (main.rs:202-213): the signed number of
seconds, divided by 86400 truncating toward zero (Rust `i64` division); `0`
when no release date is stored.  The current instant is `today` plus
`nowSec` seconds. -/
def daysSinceRelease (released : Option NaiveDate) (today : NaiveDate) (nowSec : Nat) : Int :=
  match released with
  | some rd =>
    Int.tdiv (((today.toDays : Int) - (rd.toDays : Int)) * 86400 + (nowSec : Int)) 86400
  | none => 0

/-- External circumstances of one loop iteration: the transport result for
the target's URL, whether each SQL statement of `Target::update` fails, and
whether `send_email` fails (with its error message). -/
structure Env where
  resp : Except String Response
  insertFails : Bool
  updateFails : Bool
  sendFails : Option String

/-- How a loop iteration ends: normally, with an `Err` propagated by `?`, or
with a panic. -/
inductive StepOutcome where
  | ok
  | err (e : AppError)
  | panicked
deriving DecidableEq

/-- Observable result of one iteration of the batch loop: the database
state, the e-mails delivered, the status lines printed, the days-since-
release figure that was computed for the report (`none` when the code
computes no such figure), and how the iteration ended. -/
structure StepResult where
  db : DB
  emails : List (String × String)
  printed : List String
  days : Option Int
  outcome : StepOutcome
deriving DecidableEq

/-- One iteration of the batch loop of `main` (main.rs:196-261): fetch,
extract, compare with `current_version`, and on a change update the store
and send the notification.  Every `?` in the source becomes a `.err`
outcome here. -/
def processTarget (db : DB) (t : Target) (env : Env) (today : NaiveDate)
    (nowSec : Nat) : StepResult :=
  match env.resp with
  | Except.error m => ⟨db, [], [], none, StepOutcome.err (AppError.ReqwestError m)⟩
  | Except.ok resp =>
    match fetch_version_core t.target_type t.jsonpath_line resp with
    | ExtractOutcome.panicked => ⟨db, [], [], none, StepOutcome.panicked⟩
    | ExtractOutcome.err e => ⟨db, [], [], none, StepOutcome.err e⟩
    | ExtractOutcome.ok none =>
      ⟨db, [], ["No new version found for target: " ++ t.name], none, StepOutcome.ok⟩
    | ExtractOutcome.ok (some new_version) =>
      match t.current_version with
      | some current_version =>
        if new_version ≠ current_version then
          let days := daysSinceRelease t.released today nowSec
          let ur := t.update db new_version today env.insertFails env.updateFails
          match ur.err with
          | some e => ⟨ur.db, [], [], some days, StepOutcome.err e⟩
          | none =>
            let subject := "New version for target: " ++ t.name
            let body := "Target: " ++ t.name ++ "\nOld Version: " ++ current_version ++
              "\nNew Version: " ++ new_version ++ "\nDays Since Last Release: " ++ toString days
            match env.sendFails with
            | some m => ⟨ur.db, [], [], some days, StepOutcome.err (AppError.UnexpectedError m)⟩
            | none =>
              ⟨ur.db, [(subject, body)],
                ["Updated target: " ++ t.name ++ " to version: " ++ new_version],
                some days, StepOutcome.ok⟩
        else
          ⟨db, [], ["Target: " ++ t.name ++ " version is unchanged: " ++ current_version],
            none, StepOutcome.ok⟩
      | none =>
        let ur := t.update db new_version today env.insertFails env.updateFails
        match ur.err with
        | some e => ⟨ur.db, [], [], none, StepOutcome.err e⟩
        | none =>
          let subject := "New version for target: " ++ t.name
          let body := "Target: " ++ t.name ++ "\nNew Version: " ++ new_version
          match env.sendFails with
          | some m => ⟨ur.db, [], [], none, StepOutcome.err (AppError.UnexpectedError m)⟩
          | none =>
            ⟨ur.db, [(subject, body)],
              ["Updated target: " ++ t.name ++ " to version: " ++ new_version],
              none, StepOutcome.ok⟩

/-- Observable result of a whole run of `main`. -/
structure BatchResult where
  db : DB
  emails : List (String × String)
  printed : List String
  outcome : StepOutcome
deriving DecidableEq

/-- Worker for `runBatch`: process the remaining targets, accumulating
effects; an `Err` or a panic at any target leaves the loop at once, because
every fallible call in the loop body is made with `?`. -/
def runBatchAux (db : DB) (ts : List Target) (envf : Nat → Env) (i : Nat)
    (today : NaiveDate) (nowSec : Nat) (emails : List (String × String))
    (printed : List String) : BatchResult :=
  match ts with
  | [] => ⟨db, emails, printed, StepOutcome.ok⟩
  | t :: rest =>
    let r := processTarget db t (envf i) today nowSec
    match r.outcome with
    | StepOutcome.ok =>
      runBatchAux r.db rest envf (i + 1) today nowSec (emails ++ r.emails) (printed ++ r.printed)
    | o => ⟨r.db, emails ++ r.emails, printed ++ r.printed, o⟩

/-- The batch loop of `main` (main.rs:195-261): the target list is read once
by `Target::select_all`, then each target is processed in order; `envf n`
gives the external circumstances of the `n`-th iteration. -/
def runBatch (db : DB) (envf : Nat → Env) (today : NaiveDate) (nowSec : Nat) : BatchResult :=
  runBatchAux db db.targets envf 0 today nowSec [] []

/-! ### Concrete fixtures used by closed counterexample / evaluation theorems -/

/-- Fixture for C2: a fully populated target row. -/
def t2fix : Target := ⟨some 1, "t", "text", "u", some "0", some "1.0", some ⟨2024, 1, 1⟩⟩

/-- Fixture for C2: database holding just `t2fix`, empty history. -/
def db2fix : DB := ⟨[t2fix], []⟩

/-- Fixture for C3: response body `{"v": 1}` whose parse is an object binding
`v` to the (non-string) number 1. -/
def resp3fix : Response := ⟨"\x7b\"v\": 1\x7d", Except.ok (Json.obj [("v", Json.num 1)])⟩

/-- Fixture for C4: a target never observed (`current_version`/`released` absent). -/
def t4fix : Target := ⟨some 2, "tool", "text", "http://x", some "0", none, none⟩

/-- Fixture for C4: database holding just `t4fix`, empty history. -/
def db4fix : DB := ⟨[t4fix], []⟩

/-- Fixture for C4: a successful fetch of the body `1.0` with no failures. -/
def env4fix : Env := ⟨Except.ok ⟨"1.0", Except.error "not json"⟩, false, false, none⟩

/-- Fixture for C5: a target whose stored version is `1.0`. -/
def t5fix : Target := ⟨some 3, "a", "text", "u", some "0", some "1.0", none⟩

/-- Fixture for C5: database holding just `t5fix`. -/
def db5fix : DB := ⟨[t5fix], []⟩

/-- Fixture for C5: a successful fetch whose first line is again `1.0`. -/
def env5fix : Env := ⟨Except.ok ⟨"1.0\nrest", Except.error "not json"⟩, false, false, none⟩

/-- Fixture for C1: a first target whose fetch will fail. -/
def t1afix : Target := ⟨some 1, "a", "text", "u", some "0", some "1.0", none⟩

/-- Fixture for C1: a second target that, if processed, prints a status line. -/
def t1bfix : Target := ⟨some 2, "b", "other", "u", none, none, none⟩

/-- Fixture for C1: database holding the two targets. -/
def db1fix : DB := ⟨[t1afix, t1bfix], []⟩

/-- Fixture for C1: the first fetch fails with a transport error, the second
would succeed. -/
def env1fix : Nat → Env := fun i =>
  if i = 0 then ⟨Except.error "connection refused", false, false, none⟩
  else ⟨Except.ok ⟨"", Except.error "empty"⟩, false, false, none⟩

/-! ### Helper lemmas -/

theorem charVal_digitChar {d : Nat} (h : d < 10) : charVal (digitChar d) = d := by
  interval_cases d <;> decide

theorem isDigit_digitChar {d : Nat} (h : d < 10) : (digitChar d).isDigit = true := by
  interval_cases d <;> decide

theorem natDigits_all_digit (n : Nat) : ∀ c ∈ natDigits n, c.isDigit = true := by
  intro c hc
  simp only [natDigits, List.mem_reverse, List.mem_map] at hc
  obtain ⟨d, hd, rfl⟩ := hc
  exact isDigit_digitChar (Nat.digits_lt_base (by norm_num) hd)

theorem leftPad_all_digit (k n : Nat) : ∀ c ∈ leftPad k (natDigits n), c.isDigit = true := by
  intro c hc
  simp only [leftPad, List.mem_append, List.mem_replicate] at hc
  rcases hc with ⟨-, rfl⟩ | hc
  · decide
  · exact natDigits_all_digit n c hc

theorem ofDigits_replicate_zero (j : Nat) : Nat.ofDigits 10 (List.replicate j 0) = 0 := by
  induction j with
  | zero => rfl
  | succ j ih => simp [List.replicate_succ, Nat.ofDigits_cons, ih]

theorem map_charVal_natDigits (n : Nat) :
    ((natDigits n).map charVal).reverse = Nat.digits 10 n := by
  simp only [natDigits, List.map_reverse, List.reverse_reverse, List.map_map]
  have h : ∀ d ∈ Nat.digits 10 n, (charVal ∘ digitChar) d = id d := fun d hd =>
    charVal_digitChar (Nat.digits_lt_base (by norm_num) hd)
  rw [List.map_congr_left h, List.map_id]

theorem readNat_leftPad (k n : Nat) (hk : 0 < k) :
    readNat (leftPad k (natDigits n)) = some n := by
  have hlen : 0 < (leftPad k (natDigits n)).length := by
    simp only [leftPad, List.length_append, List.length_replicate]
    omega
  have hie : (leftPad k (natDigits n)).isEmpty = false := by
    cases hl : leftPad k (natDigits n) with
    | nil => rw [hl] at hlen; simp at hlen
    | cons a l => rfl
  have hall : (leftPad k (natDigits n)).all Char.isDigit = true := by
    rw [List.all_eq_true]
    exact fun c hc => leftPad_all_digit k n c hc
  unfold readNat
  rw [hie, hall]
  simp only [Bool.false_eq_true, if_false, if_true]
  congr 1
  show Nat.ofDigits 10 (((List.replicate (k - (natDigits n).length) '0' ++ natDigits n).map charVal).reverse) = n
  rw [List.map_append, List.map_replicate, List.reverse_append, List.reverse_replicate]
  rw [show charVal '0' = 0 from rfl]
  rw [Nat.ofDigits_append, map_charVal_natDigits, Nat.ofDigits_digits,
    ofDigits_replicate_zero]
  simp

theorem splitDash_no_dash (l : List Char) (h : ('-' : Char) ∉ l) : splitDash l = [l] := by
  induction l with
  | nil => rfl
  | cons c rest ih =>
    simp only [List.mem_cons, not_or] at h
    obtain ⟨h1, h2⟩ := h
    simp only [splitDash, if_neg (fun hc : c = '-' => h1 hc.symm)]
    rw [ih h2]

theorem splitDash_append (a s : List Char) (h : ('-' : Char) ∉ a) :
    splitDash (a ++ '-' :: s) = a :: splitDash s := by
  induction a with
  | nil => simp [splitDash]
  | cons c rest ih =>
    simp only [List.mem_cons, not_or] at h
    obtain ⟨h1, h2⟩ := h
    simp only [List.cons_append, splitDash, if_neg (fun hc : c = '-' => h1 hc.symm),
      List.append_eq]
    rw [ih h2]

theorem no_dash_of_all_digit (l : List Char) (h : ∀ c ∈ l, c.isDigit = true) :
    ('-' : Char) ∉ l :=
  fun hm => absurd (h _ hm) (by decide)

theorem daysSinceRelease_eq (rel today : NaiveDate) (s : Nat)
    (hs : s < 86400) (hle : rel.toDays ≤ today.toDays) :
    daysSinceRelease (some rel) today s = (today.toDays : Int) - (rel.toDays : Int) := by
  simp only [daysSinceRelease]
  have h1 : ((today.toDays : Int) - (rel.toDays : Int))
      = ((today.toDays - rel.toDays : Nat) : Int) := by omega
  rw [h1]
  have h2 : ((today.toDays - rel.toDays : Nat) : Int) * 86400 + (s : Int)
      = (((today.toDays - rel.toDays) * 86400 + s : Nat) : Int) := by push_cast; ring
  rw [h2]
  have h3 : Int.tdiv (((today.toDays - rel.toDays) * 86400 + s : Nat) : Int) (86400 : Int)
      = ((((today.toDays - rel.toDays) * 86400 + s) / 86400 : Nat) : Int) := rfl
  rw [h3]
  have h4 : ((today.toDays - rel.toDays) * 86400 + s) / 86400 = today.toDays - rel.toDays := by
    omega
  rw [h4]

/-! ### Claim theorems -/

/-- C10 (confirmed): for every valid calendar date (within the years chrono
renders as plain 4-digit ISO), writing it to storage via the `ToSql`
serialisation (`MyNaiveDate.to_sql`, the ISO string such as `2024-03-05`)
and reading it back via the `FromSql` deserialisation
(`MyNaiveDate.column_result`) yields the same calendar date: a round-trip
identity with no timezone shift. -/
theorem c10_date_roundtrip (dt : NaiveDate) (hv : validYmd dt.y dt.m dt.d = true)
    (_hy : dt.y ≤ 9999) :
    MyNaiveDate.column_result (MyNaiveDate.to_sql dt) = some dt := by
  unfold MyNaiveDate.column_result MyNaiveDate.to_sql NaiveDate.parseYmd NaiveDate.format
  have hA := no_dash_of_all_digit _ (leftPad_all_digit 4 dt.y)
  have hB := no_dash_of_all_digit _ (leftPad_all_digit 2 dt.m)
  have hC := no_dash_of_all_digit _ (leftPad_all_digit 2 dt.d)
  show (match splitDash (leftPad 4 (natDigits dt.y) ++
      '-' :: (leftPad 2 (natDigits dt.m) ++ '-' :: leftPad 2 (natDigits dt.d))) with
    | [ys, ms, ds] =>
      match readNat ys, readNat ms, readNat ds with
      | some y, some m, some d => if validYmd y m d then some ⟨y, m, d⟩ else none
      | _, _, _ => none
    | _ => none) = some dt
  rw [splitDash_append _ _ hA, splitDash_append _ _ hB, splitDash_no_dash _ hC]
  simp only [readNat_leftPad 4 dt.y (by norm_num), readNat_leftPad 2 dt.m (by norm_num),
    readNat_leftPad 2 dt.d (by norm_num), hv, if_true]

/-- Witness for C10 at the spec's example date 2024-03-05. -/
theorem c10_date_roundtrip_witness :
    validYmd 2024 3 5 = true ∧ 2024 ≤ 9999 ∧
    MyNaiveDate.column_result (MyNaiveDate.to_sql ⟨2024, 3, 5⟩) = some ⟨2024, 3, 5⟩ :=
  ⟨by decide, by decide, c10_date_roundtrip ⟨2024, 3, 5⟩ (by decide) (by decide)⟩

/-- C7 (confirmed): on a NewVersion transition, the days-since-last-release
figure is the number of whole days between the stored released date at
midnight and the current instant (`today` plus `nowSec` seconds), i.e. the
difference of the two dates' day numbers; released 2024-01-01 evaluated on
2024-01-11 yields 10; an absent released date yields 0. -/
theorem c7_days_since_release (rel today : NaiveDate) (s : Nat)
    (hs : s < 86400) (hle : rel.toDays ≤ today.toDays) :
    daysSinceRelease (some rel) today s = (today.toDays : Int) - (rel.toDays : Int) ∧
    daysSinceRelease none today s = 0 ∧
    daysSinceRelease (some ⟨2024, 1, 1⟩) ⟨2024, 1, 11⟩ s = 10 := by
  refine ⟨daysSinceRelease_eq rel today s hs hle, rfl, ?_⟩
  rw [daysSinceRelease_eq ⟨2024, 1, 1⟩ ⟨2024, 1, 11⟩ s hs (by decide)]
  decide

/-- Witness for C7 at released 2024-01-01, now 2024-01-11 01:00:00. -/
theorem c7_days_since_release_witness :
    3600 < 86400 ∧
    NaiveDate.toDays ⟨2024, 1, 1⟩ ≤ NaiveDate.toDays ⟨2024, 1, 11⟩ ∧
    daysSinceRelease (some ⟨2024, 1, 1⟩) ⟨2024, 1, 11⟩ 3600 = 10 :=
  ⟨by decide, by decide,
    (c7_days_since_release ⟨2024, 1, 1⟩ ⟨2024, 1, 11⟩ 3600 (by decide) (by decide)).2.2⟩

/-- C2 (code bug): `Target::update` runs the INSERT into `versions` and the
UPDATE of `targets` as two independent autocommitted statements, not one
transaction.  Evaluating the code at an update where the second statement
fails after the first succeeded: the call returns an error, yet the history
record has been written while the target row is unchanged — a partial
write, contradicting the claimed both-or-neither atomicity. -/
theorem c2_partial_write_eval :
    (t2fix.update db2fix "2.0" ⟨2024, 1, 11⟩ false true).err =
      some (AppError.SqlError "UPDATE targets failed") ∧
    (t2fix.update db2fix "2.0" ⟨2024, 1, 11⟩ false true).db.versions =
      [⟨1, some "1.0", some ⟨2024, 1, 1⟩, ⟨2024, 1, 11⟩, "2.0"⟩] ∧
    (t2fix.update db2fix "2.0" ⟨2024, 1, 11⟩ false true).db.targets = [t2fix] :=
  ⟨rfl, rfl, rfl⟩

/-- C3 (code bug): under the `json` variant, when the query's first match is
a value that is not string-coercible (here the number 1 for path `$.v` on
body `\x7b"v": 1\x7d`), the code calls `as_str().unwrap()` on `None` and
panics instead of returning an extraction error. -/
theorem c3_unwrap_eval :
    fetch_version_core "json" (some "$.v") resp3fix = ExtractOutcome.panicked := by
  decide

/-- C5 (confirmed): when extraction returns a value byte-for-byte equal to
the stored `current_version`, the iteration writes no history record, sends
no notification, and leaves the whole database (target row included)
unchanged; it only prints the unchanged-status line. -/
theorem c5_unchanged_frame (db : DB) (t : Target) (env : Env) (resp : Response)
    (today : NaiveDate) (s : Nat) (cv : String)
    (hresp : env.resp = Except.ok resp)
    (hx : fetch_version_core t.target_type t.jsonpath_line resp = ExtractOutcome.ok (some cv))
    (hcv : t.current_version = some cv) :
    processTarget db t env today s =
      ⟨db, [], ["Target: " ++ t.name ++ " version is unchanged: " ++ cv],
        none, StepOutcome.ok⟩ := by
  simp [processTarget, hresp, hx, hcv]

/-- Witness for C5: a target at version 1.0 whose fetched body's first line
is again 1.0. -/
theorem c5_unchanged_frame_witness :
    env5fix.resp = Except.ok ⟨"1.0\nrest", Except.error "not json"⟩ ∧
    fetch_version_core t5fix.target_type t5fix.jsonpath_line
      ⟨"1.0\nrest", Except.error "not json"⟩ = ExtractOutcome.ok (some "1.0") ∧
    t5fix.current_version = some "1.0" ∧
    processTarget db5fix t5fix env5fix ⟨2024, 1, 11⟩ 0 =
      ⟨db5fix, [], ["Target: a version is unchanged: 1.0"], none, StepOutcome.ok⟩ :=
  ⟨rfl, by decide, rfl,
    c5_unchanged_frame db5fix t5fix env5fix ⟨"1.0\nrest", Except.error "not json"⟩
      ⟨2024, 1, 11⟩ 0 "1.0" rfl (by decide) rfl⟩

/-- C6 (confirmed): positional (`text`) extraction with rule `2` on any
5-line body returns the verbatim third line (0-based index 2); rule `10` on
the same body fails with `VersionNotFound`; rule `abc` (not a non-negative
integer) fails with `InvalidLineNumber` on any body. -/
theorem c6_positional_extraction (resp resp2 : Response)
    (h5 : (rustLines resp.text).length = 5) :
    fetch_version_core "text" (some "2") resp =
      ExtractOutcome.ok (some ((rustLines resp.text).getD 2 "")) ∧
    fetch_version_core "text" (some "10") resp = ExtractOutcome.err AppError.VersionNotFound ∧
    fetch_version_core "text" (some "abc") resp2 =
      ExtractOutcome.err AppError.InvalidLineNumber := by
  have h2 : parseUsize "2" = some 2 := by decide
  have h10 : parseUsize "10" = some 10 := by decide
  have habc : parseUsize "abc" = none := by decide
  refine ⟨?_, ?_, ?_⟩
  · have h2lt : 2 < (rustLines resp.text).length := by omega
    simp [fetch_version_core, h2, List.getElem?_eq_getElem h2lt,
      List.getD_eq_getElem (rustLines resp.text) "" h2lt]
  · have hg : (rustLines resp.text)[10]? = none := List.getElem?_eq_none (by omega)
    simp [fetch_version_core, h10, hg]
  · simp [fetch_version_core, habc]

/-- Witness for C6 on the concrete 5-line body `a\nb\nc\nd\ne`. -/
theorem c6_positional_extraction_witness :
    (rustLines "a\nb\nc\nd\ne").length = 5 ∧
    fetch_version_core "text" (some "2") ⟨"a\nb\nc\nd\ne", Except.error "not json"⟩ =
      ExtractOutcome.ok (some "c") ∧
    fetch_version_core "text" (some "10") ⟨"a\nb\nc\nd\ne", Except.error "not json"⟩ =
      ExtractOutcome.err AppError.VersionNotFound ∧
    fetch_version_core "text" (some "abc") ⟨"x", Except.error "not json"⟩ =
      ExtractOutcome.err AppError.InvalidLineNumber := by
  have h := c6_positional_extraction ⟨"a\nb\nc\nd\ne", Except.error "not json"⟩
    ⟨"x", Except.error "not json"⟩ (by decide)
  exact ⟨by decide, h.1, h.2.1, h.2.2⟩

/-- C8 (confirmed): a successful `Target::update` writes `current_version`
and `released` together: afterwards the target's row holds the extracted
new version and today's date (both present), exactly one history record
capturing the pre-update state was appended, and the
both-present-or-both-absent invariant on target rows is preserved. -/
theorem c8_update_writes_both (db : DB) (t : Target) (v : String) (today : NaiveDate)
    (i : Int) (hid : t.id = some i) :
    (t.update db v today false false).err = none ∧
    (t.update db v today false false).db.versions =
      db.versions ++ [⟨i, t.current_version, t.released, today, v⟩] ∧
    (∀ r ∈ (t.update db v today false false).db.targets, r.id = some i →
      r.current_version = some v ∧ r.released = some today) ∧
    ((∀ r ∈ db.targets, (r.current_version = none ↔ r.released = none)) →
      ∀ r ∈ (t.update db v today false false).db.targets,
        (r.current_version = none ↔ r.released = none)) := by
  refine ⟨by simp [Target.update, hid], by simp [Target.update, hid], ?_, ?_⟩
  · intro r hr hri
    simp only [Target.update, hid, Bool.false_eq_true, if_false, List.mem_map] at hr
    obtain ⟨r0, hr0, rfl⟩ := hr
    by_cases h : r0.id = some i
    · simp [h]
    · simp only [if_neg h] at hri ⊢
      exact absurd hri h
  · intro hinv r hr
    simp only [Target.update, hid, Bool.false_eq_true, if_false, List.mem_map] at hr
    obtain ⟨r0, hr0, rfl⟩ := hr
    by_cases h : r0.id = some i
    · simp [h]
    · simp only [if_neg h]
      exact hinv r0 hr0

/-- Witness for C8: updating `t2fix` to version 2.0 on 2024-01-11. -/
theorem c8_update_writes_both_witness :
    t2fix.id = some 1 ∧
    (t2fix.update db2fix "2.0" ⟨2024, 1, 11⟩ false false).err = none ∧
    (t2fix.update db2fix "2.0" ⟨2024, 1, 11⟩ false false).db.versions =
      [⟨1, some "1.0", some ⟨2024, 1, 1⟩, ⟨2024, 1, 11⟩, "2.0"⟩] ∧
    (∀ r ∈ (t2fix.update db2fix "2.0" ⟨2024, 1, 11⟩ false false).db.targets,
      r.id = some 1 → r.current_version = some "2.0" ∧ r.released = some ⟨2024, 1, 11⟩) := by
  have h := c8_update_writes_both db2fix t2fix "2.0" ⟨2024, 1, 11⟩ 1 rfl
  exact ⟨rfl, h.1, h.2.1, h.2.2.1⟩

/-- C9 (confirmed): when the extraction rule is absent, or the target type is
neither `json` nor `text`, extraction returns `Ok(None)` (no error), and the
iteration prints the no-new-version status line with no database write and
no notification. -/
theorem c9_none_extraction (db : DB) (t : Target) (env : Env) (resp : Response)
    (today : NaiveDate) (s : Nat)
    (hresp : env.resp = Except.ok resp)
    (h : t.jsonpath_line = none ∨ (t.target_type ≠ "json" ∧ t.target_type ≠ "text")) :
    fetch_version_core t.target_type t.jsonpath_line resp = ExtractOutcome.ok none ∧
    processTarget db t env today s =
      ⟨db, [], ["No new version found for target: " ++ t.name], none, StepOutcome.ok⟩ := by
  have hx : fetch_version_core t.target_type t.jsonpath_line resp = ExtractOutcome.ok none := by
    rcases h with h | ⟨h1, h2⟩
    · by_cases hj : t.target_type = "json"
      · simp [fetch_version_core, hj, h]
      · by_cases ht : t.target_type = "text"
        · simp [fetch_version_core, hj, ht, h]
        · simp [fetch_version_core, hj, ht]
    · simp [fetch_version_core, h1, h2]
  refine ⟨hx, ?_⟩
  simp [processTarget, hresp, hx]

/-- Witness for C9: target `t1bfix` has an unrecognised type `other` (and no
rule); extraction is `None` and only the status line is produced. -/
theorem c9_none_extraction_witness :
    env1fix 1 = ⟨Except.ok ⟨"", Except.error "empty"⟩, false, false, none⟩ ∧
    (t1bfix.jsonpath_line = none ∨
      (t1bfix.target_type ≠ "json" ∧ t1bfix.target_type ≠ "text")) ∧
    fetch_version_core t1bfix.target_type t1bfix.jsonpath_line
      ⟨"", Except.error "empty"⟩ = ExtractOutcome.ok none ∧
    processTarget db1fix t1bfix (env1fix 1) ⟨2024, 1, 11⟩ 0 =
      ⟨db1fix, [], ["No new version found for target: b"], none, StepOutcome.ok⟩ := by
  have h := c9_none_extraction db1fix t1bfix (env1fix 1) ⟨"", Except.error "empty"⟩
    ⟨2024, 1, 11⟩ 0 rfl (Or.inl rfl)
  exact ⟨rfl, Or.inl rfl, h.1, h.2⟩

/-- C1 counterexample: a concrete two-target batch whose first fetch fails
with a transport error.  Contrary to the claim, the error is not converted
into a status report (nothing is printed at all) and the batch does not
continue: the second target — which on its own would print a
no-new-version line — is never processed, and the error becomes the
outcome of the whole run. -/
theorem c1_counterexample :
    (runBatch db1fix env1fix ⟨2024, 1, 11⟩ 0).outcome =
      StepOutcome.err (AppError.ReqwestError "connection refused") ∧
    (runBatch db1fix env1fix ⟨2024, 1, 11⟩ 0).printed = [] ∧
    (runBatch db1fix env1fix ⟨2024, 1, 11⟩ 0).emails = [] ∧
    (runBatch db1fix env1fix ⟨2024, 1, 11⟩ 0).db = db1fix :=
  ⟨rfl, rfl, rfl, rfl⟩

/-- C1 (corrected): a target-local error (here a transport failure; the same
holds for extraction errors, which also leave the loop through `?`) aborts
the whole batch run immediately: it is returned as the outcome of `main`,
no status line is produced for the failing target, and the remaining
targets are not processed (no print, no write, no notification for them). -/
theorem c1_amended_abort (db : DB) (envf : Nat → Env) (t : Target) (rest : List Target)
    (today : NaiveDate) (s : Nat) (m : String)
    (hts : db.targets = t :: rest) (hr : (envf 0).resp = Except.error m) :
    runBatch db envf today s = ⟨db, [], [], StepOutcome.err (AppError.ReqwestError m)⟩ := by
  unfold runBatch
  rw [hts]
  unfold runBatchAux
  simp [processTarget, hr]

/-- Witness for C1 (amended) on the concrete two-target batch. -/
theorem c1_amended_abort_witness :
    db1fix.targets = t1afix :: [t1bfix] ∧
    (env1fix 0).resp = Except.error "connection refused" ∧
    runBatch db1fix env1fix ⟨2024, 1, 11⟩ 0 =
      ⟨db1fix, [], [], StepOutcome.err (AppError.ReqwestError "connection refused")⟩ :=
  ⟨rfl, rfl,
    c1_amended_abort db1fix env1fix t1afix [t1bfix] ⟨2024, 1, 11⟩ 0
      "connection refused" rfl rfl⟩

/-- C4 counterexample: a concrete target with `current_version` absent whose
extraction succeeds with `1.0`.  The iteration does take the update path
(one history record with null `version`/`released` and
`updated_version = 1.0`, one notification), but contrary to the claim it
computes no days-since-release figure at all — the figure is absent, not
`0`, and the notification body carries no days line. -/
theorem c4_counterexample :
    (processTarget db4fix t4fix env4fix ⟨2024, 1, 11⟩ 0).days ≠ some 0 ∧
    (processTarget db4fix t4fix env4fix ⟨2024, 1, 11⟩ 0).days = none ∧
    (processTarget db4fix t4fix env4fix ⟨2024, 1, 11⟩ 0).outcome = StepOutcome.ok ∧
    (processTarget db4fix t4fix env4fix ⟨2024, 1, 11⟩ 0).db.versions =
      [⟨2, none, none, ⟨2024, 1, 11⟩, "1.0"⟩] ∧
    (processTarget db4fix t4fix env4fix ⟨2024, 1, 11⟩ 0).emails =
      [("New version for target: tool", "Target: tool\nNew Version: 1.0")] :=
  ⟨by decide, rfl, rfl, rfl, rfl⟩

/-- C4 (corrected): for a target with `current_version` absent (and, per the
data-model invariant, `released` absent) whose extraction succeeds with
`v`, the iteration treats this as a change: it writes exactly one history
record with null `version`/`released` and `updated_version = v`, sets the
target row's `current_version` to `v` (and `released` to today), and sends
one notification — but it computes no days-since-release figure (the
code's first-observation branch has no days computation and the
notification body omits the days line), rather than a figure of `0`. -/
theorem c4_amended_first_observation (db : DB) (t : Target) (env : Env) (resp : Response)
    (today : NaiveDate) (s : Nat) (v : String) (i : Int)
    (hresp : env.resp = Except.ok resp)
    (hx : fetch_version_core t.target_type t.jsonpath_line resp = ExtractOutcome.ok (some v))
    (hcv : t.current_version = none) (hrel : t.released = none) (hid : t.id = some i)
    (hins : env.insertFails = false) (hupd : env.updateFails = false)
    (hsend : env.sendFails = none) :
    processTarget db t env today s =
      ⟨⟨db.targets.map (fun r =>
          if r.id = some i then
            { r with current_version := some v, released := some today }
          else r),
        db.versions ++ [⟨i, none, none, today, v⟩]⟩,
       [("New version for target: " ++ t.name, "Target: " ++ t.name ++ "\nNew Version: " ++ v)],
       ["Updated target: " ++ t.name ++ " to version: " ++ v],
       none, StepOutcome.ok⟩ := by
  simp [processTarget, hresp, hx, hcv, Target.update, hid, hins, hupd, hsend, hrel]

/-- Witness for C4 (amended) at the concrete first-observation fixture. -/
theorem c4_amended_first_observation_witness :
    env4fix.resp = Except.ok ⟨"1.0", Except.error "not json"⟩ ∧
    fetch_version_core t4fix.target_type t4fix.jsonpath_line
      ⟨"1.0", Except.error "not json"⟩ = ExtractOutcome.ok (some "1.0") ∧
    t4fix.current_version = none ∧ t4fix.released = none ∧ t4fix.id = some 2 ∧
    processTarget db4fix t4fix env4fix ⟨2024, 1, 11⟩ 0 =
      ⟨⟨db4fix.targets.map (fun r =>
          if r.id = some 2 then
            { r with current_version := some "1.0", released := some ⟨2024, 1, 11⟩ }
          else r),
        [⟨2, none, none, ⟨2024, 1, 11⟩, "1.0"⟩]⟩,
       [("New version for target: tool", "Target: tool\nNew Version: 1.0")],
       ["Updated target: tool to version: 1.0"],
       none, StepOutcome.ok⟩ :=
  ⟨rfl, by decide, rfl, rfl, rfl,
    c4_amended_first_observation db4fix t4fix env4fix ⟨"1.0", Except.error "not json"⟩
      ⟨2024, 1, 11⟩ 0 "1.0" 2 rfl (by decide) rfl rfl rfl rfl rfl rfl⟩
